import Mathlib

set_option maxHeartbeats 1000000

namespace GnosisInfluencer

/-- JSON values, modelling the Python values produced by `json.loads` and the
identifiers carried in request payloads. -/
inductive JValue where
  | null
  | bool (b : Bool)
  | num (n : Int)
  | str (s : String)
  | arr (elems : List JValue)
  | obj (fields : List (String × JValue))

/-- Sender role of a message, mirroring the `SenderType` enum in `app.py`. -/
inductive SenderType where
  | user
  | ai

/-- Conversation row, mirroring the `Conversation` model in `app.py` (only the
fields the endpoint reads: `user_id` and `content_id`). -/
structure Conversation where
  user_id : Int
  content_id : Int

/-- Message row as read back from the store, mirroring the `Message` model in
`app.py`.  Only the fields the endpoint reads (`sender`, `message_text`) are
modelled; the timestamp ordering invariant is modelled by list order: the store
returns messages ascending by timestamp. -/
structure Message where
  sender : SenderType
  message_text : String

/-- Chat message handed to the generative model: a role/content pair, mirroring
the dicts appended to `prompt_messages` in `app.py`. -/
structure ChatMsg where
  role : String
  content : String

/-- Search hit returned by the GraphQL `searchSimilarChunks` query; the code
reads the `chunkId` and `text` fields of the top result. -/
structure SearchResult where
  chunkId : JValue
  text : String

/-- Body of a 200 search response: whether the GraphQL payload carries an
`errors` key, and the value found at `data.searchSimilarChunks` (`none` models
a missing or null field, `some l` an actual list). -/
structure SearchBody where
  hasErrors : Bool
  chunks : Option (List SearchResult)

/-- Message row constructed and inserted by the endpoint.  `message_text` is a
`JValue` because the code assigns `tweet['tweet']` without checking that it is
a string. -/
structure AiMessage where
  conversation_id : Int
  sender : SenderType
  message_text : JValue
  content_chunk_id : JValue

/-- Record of one outbound collaborator call, with the arguments the code sends
that matter to the specification. -/
inductive CallRec where
  | profileFetch (content_id : Int)
  | chunkFetch (chunk_id : JValue)
  | searchCall (user_id : String) (query_text : String)
  | modelCall (prompt : List ChatMsg)

/-- Boolean test for a search call record. -/
def CallRec.isSearchCall : CallRec → Bool
  | CallRec.searchCall _ _ => true
  | _ => false

/-- Boolean test for a chunk-by-id fetch record. -/
def CallRec.isChunkFetch : CallRec → Bool
  | CallRec.chunkFetch _ => true
  | _ => false

/-- Boolean test for a generative-model call record. -/
def CallRec.isModelCall : CallRec → Bool
  | CallRec.modelCall _ => true
  | _ => false

/-- Inbound request payload.  `conversation_id = none` models a payload without
the `conversation_id` key; `content_chunk_id` is the JSON value found under
`content_chunk_id` (`none` models an absent key, which `data.get` turns into
Python `None`, itself falsy like `JValue.null`). -/
structure RequestData where
  conversation_id : Option Int
  content_chunk_id : Option JValue

/-- Environment of external collaborators, each modelled as the function the
code observes through its checked calls.
* `getConversation`: `Conversation.query.get`.
* `getMessages`: messages of the conversation ordered ascending by timestamp.
* `profileResp`: `none` is a non-200 profile response; `some f` is a 200
  response whose optional `systems_instructions` field is `f`.
* `chunkResp`: `none` is a non-200 chunk response; `some none` a 200 response
  whose JSON lacks the `text` key (so `chunk_data['text']` raises); and
  `some (some t)` a 200 response with text `t`.
* `searchResp`: keyed by the `(userId, queryText)` variables the code sends;
  `none` is a non-200 response.
* `modelResp`: `none` models the OpenAI call raising a transport error.
* `jsonLoads`: uninterpreted oracle for the Python stdlib `json.loads`:
  `none` when the string is not valid JSON (the call raises), `some v` the
  parsed value. -/
structure World where
  getConversation : Int → Option Conversation
  getMessages : Int → List Message
  profileResp : Int → Option (Option String)
  chunkResp : JValue → Option (Option String)
  searchResp : String → String → Option SearchBody
  modelResp : List ChatMsg → Option String
  jsonLoads : String → Option JValue

/-- Observable outcome of one run of the endpoint: HTTP status, the string
under the `error` (or, on success, `message`) key, whether it was an error
payload, the batch of rows committed, and the outbound calls in order. -/
structure RunTrace where
  status : Nat
  body : String
  isError : Bool
  persisted : List AiMessage
  calls : List CallRec

/-- Python truthiness of a JSON value, as used by `if content_chunk_id:`. -/
def jTruthy : JValue → Bool
  | JValue.null => false
  | JValue.bool b => b
  | JValue.num n => n != 0
  | JValue.str s => s != ""
  | JValue.arr xs => !xs.isEmpty
  | JValue.obj fs => !fs.isEmpty

/-- Role mapping `'user' if msg.sender == SenderType.user else 'assistant'`. -/
def roleStr : SenderType → String
  | SenderType.user => "user"
  | SenderType.ai => "assistant"

/-- Final value of the `user_query` variable: the loop overwrites it with the
text of every user-sent message in order, so it ends as the text of the last
user message (empty string if none). -/
def lastUserQuery (messages : List Message) : String :=
  messages.foldl
    (fun acc m =>
      match m.sender with
      | SenderType.user => m.message_text
      | SenderType.ai => acc)
    ""

/-- Python `sep.join(parts)`. -/
def pyJoin (sep : String) : List String → String
  | [] => ""
  | [x] => x
  | x :: y :: rest => x ++ sep ++ pyJoin sep (y :: rest)

/-- Characters removed by Python `str.strip()` with no argument. -/
def isPySpace (c : Char) : Bool :=
  c == ' ' || c == '\t' || c == '\n' || c == '\r' || c == Char.ofNat 11 || c == Char.ofNat 12

/-- Whitespace stripping on character lists: drop whitespace from both ends. -/
def pyStripChars (l : List Char) : List Char :=
  ((l.dropWhile isPySpace).reverse.dropWhile isPySpace).reverse

/-- Python `str.strip()` with no argument. -/
def pyStrip (s : String) : String :=
  String.mk (pyStripChars s.data)

/-- Boolean prefix test on character lists. -/
def isPrefixChars : List Char → List Char → Bool
  | [], _ => true
  | _ :: _, [] => false
  | p :: ps, c :: cs => p == c && isPrefixChars ps cs

/-- Left-to-right non-overlapping replacement of the nonempty pattern
`p0 :: prest` by `rep`, the semantics of Python `str.replace` for a nonempty
pattern. -/
def replaceFrom (p0 : Char) (prest rep : List Char) : List Char → List Char
  | [] => []
  | c :: rest =>
    if isPrefixChars (p0 :: prest) (c :: rest) then
      rep ++ replaceFrom p0 prest rep (rest.drop prest.length)
    else
      c :: replaceFrom p0 prest rep rest
termination_by s => s.length
decreasing_by
  · simp only [List.length_drop, List.length_cons]
    omega
  · simp only [List.length_cons]
    omega

/-- Python `s.replace(pat, rep)` (for the nonempty patterns the code uses). -/
def pyReplace (s pat rep : String) : String :=
  match pat.data with
  | [] => s
  | p0 :: prest => String.mk (replaceFrom p0 prest rep.data s.data)

/-- Pre-parse cleanup applied to the raw model text before `json.loads`:
`response.choices[0].message.content.strip().replace("```json", "").replace("```", "")`. -/
def cleanResponse (raw : String) : String :=
  pyReplace (pyReplace (pyStrip raw) "```json" "") "```" ""

/-- Backtick character (code point 96). -/
def btChar : Char := Char.ofNat 96

/-- Character list of the fence marker. -/
def fenceChars : List Char := "```".data

/-- Tail of the longer fence pattern after its leading backtick. -/
def jsonTailChars : List Char := "``json".data

/-- Tail of the short fence pattern after its leading backtick. -/
def fenceTailChars : List Char := "``".data

/-- Python iteration `for tweet in response_json`: lists yield their elements,
dicts their keys, strings their characters; other values raise `TypeError`
(`none`). -/
def jIter : JValue → Option (List JValue)
  | JValue.arr xs => some xs
  | JValue.obj fs => some (fs.map (fun p => JValue.str p.1))
  | JValue.str s => some (s.data.map (fun c => JValue.str (String.mk [c])))
  | _ => none

/-- Python subscript `tweet['tweet']`: a dict lookup (last duplicate key wins,
as in a dict built by `json.loads`; `none` on a missing key), and a `TypeError`
(`none`) on any non-dict value. -/
def jIndexTweet : JValue → Option JValue
  | JValue.obj fs => ((fs.filter (fun p => p.1 == "tweet")).getLast?).map Prod.snd
  | _ => none

/-- Message row built for one element of the parsed model output. -/
def mkAiMessage (conversation_id : Int) (chunk : JValue) (t : JValue) : AiMessage :=
  { conversation_id := conversation_id, sender := SenderType.ai,
    message_text := t, content_chunk_id := chunk }

/-- Body of the persistence loop over the already-obtained element list: build
one row per element, failing (`none`) as soon as `tweet['tweet']` raises, in
which case nothing is committed. -/
def persistList (conversation_id : Int) (chunk : JValue) : List JValue → Option (List AiMessage)
  | [] => some []
  | e :: rest =>
    match jIndexTweet e with
    | none => none
    | some t =>
      match persistList conversation_id chunk rest with
      | none => none
      | some ms => some (mkAiMessage conversation_id chunk t :: ms)

/-- Persistence step: iterate the parsed value (`TypeError` on non-iterables),
build one `ai` row per element, and commit the whole batch or nothing. -/
def persistTweets (conversation_id : Int) (chunk : JValue) (v : JValue) : Option (List AiMessage) :=
  match jIter v with
  | none => none
  | some elems => persistList conversation_id chunk elems

/-- Task prompt used when the conversation has no messages yet. -/
def firstTurnPrompt : String :=
  "Write an informative twitter thread that explains the point you\x27re making below."

/-- Task prompt prefix used when the conversation already has messages; the
code appends the last user message text to it. -/
def replyPromptPrefix : String :=
  "Reply to the user\x27s query based on the following content. \nUser query: "

/-- Fixed formatting instruction appended to every prompt, asking for a JSON
array of tweet objects. -/
def formatInstruction : String :=
  "\nReply in json format as a list of tweets, in the form [\x7b\x27tweet\x27: \x27tweet text\x27\x7d, \x7b\x27tweet\x27: \x27tweet text\x27\x7d, ...]"

/-- Header preceding the grounding text in the final prompt part. -/
def contentHeader : String :=
  "\n\nContent: "

/-- Steps 4 and 5 of the endpoint: assemble `prompt_messages` from the persona
instructions, the whole conversation history (role-mapped), and the final user
prompt carrying the task instruction, the formatting instruction, and the
grounding text. -/
def buildPrompt (systems_instructions : String) (messages : List Message) (chunk_text : String) : List ChatMsg :=
  let conversation_context := messages.map (fun m => ChatMsg.mk (roleStr m.sender) m.message_text)
  let user_query := lastUserQuery messages
  let base :=
    if messages.length == 0 then firstTurnPrompt
    else replyPromptPrefix ++ user_query
  let prompt := base ++ formatInstruction ++ contentHeader ++ chunk_text
  ChatMsg.mk "system" systems_instructions :: (conversation_context ++ [ChatMsg.mk "user" prompt])

/-- Step 3 of the endpoint: resolve the grounding chunk.  Returns the outbound
calls made and either an early error response `(status, message)` or the
resolved `(content_chunk_id, chunk_text)` pair.  A truthy supplied identifier
is fetched directly; otherwise the two most recent messages ground a
similarity search. -/
def resolveGrounding (w : World) (content_chunk_id : Option JValue)
    (conversation : Conversation) (messages : List Message) :
    List CallRec × (Sum (Nat × String) (JValue × String)) :=
  let searchPath : List CallRec × (Sum (Nat × String) (JValue × String)) :=
    let last_messages := messages.reverse.take 2
    if last_messages.length == 0 then
      ([], Sum.inl (400, "No user message found to base AI response on"))
    else
      let userId := toString conversation.user_id
      let queryText := pyJoin " " (last_messages.map Message.message_text)
      let scall := CallRec.searchCall userId queryText
      match w.searchResp userId queryText with
      | none => ([scall], Sum.inl (500, "Failed to perform search"))
      | some body =>
        if body.hasErrors then ([scall], Sum.inl (500, "Failed to perform search"))
        else
          match body.chunks with
          | none => ([scall], Sum.inl (400, "No similar content found for AI to respond with"))
          | some [] => ([scall], Sum.inl (400, "No similar content found for AI to respond with"))
          | some (top :: _) => ([scall], Sum.inr (top.chunkId, top.text))
  match content_chunk_id with
  | some v =>
    if jTruthy v then
      match w.chunkResp v with
      | none => ([CallRec.chunkFetch v], Sum.inl (500, "Failed to retrieve chunk text"))
      | some none => ([CallRec.chunkFetch v], Sum.inl (500, "Internal server error"))
      | some (some t) => ([CallRec.chunkFetch v], Sum.inr (v, t))
    else searchPath
  | none => searchPath

/-- Shallow embedding of the `/api/message/ai` endpoint (`post_message_ai` in
`app.py`).  Python exceptions escaping to the outer handler surface as the
generic `(500, "Internal server error")`; in particular `json.loads` sits
outside the inner try/except, so an unparsable model output takes that path,
while failures inside the persistence loop surface as
`(500, "Invalid JSON response from GPT-4o")` with nothing committed. -/
def post_message_ai (w : World) (req : RequestData) : RunTrace :=
  match req.conversation_id with
  | none =>
    { status := 400, body := "conversation_id is required", isError := true,
      persisted := [], calls := [] }
  | some conversation_id =>
    match w.getConversation conversation_id with
    | none =>
      { status := 404, body := "Conversation not found", isError := true,
        persisted := [], calls := [] }
    | some conversation =>
      let messages := w.getMessages conversation_id
      match w.profileResp conversation.content_id with
      | none =>
        { status := 500, body := "Failed to retrieve AI profile", isError := true,
          persisted := [], calls := [CallRec.profileFetch conversation.content_id] }
      | some instrField =>
        let systems_instructions := instrField.getD ""
        let pcall := CallRec.profileFetch conversation.content_id
        match resolveGrounding w req.content_chunk_id conversation messages with
        | (gcalls, Sum.inl failure) =>
          { status := failure.1, body := failure.2, isError := true,
            persisted := [], calls := pcall :: gcalls }
        | (gcalls, Sum.inr resolved) =>
          let prompt_messages := buildPrompt systems_instructions messages resolved.2
          match w.modelResp prompt_messages with
          | none =>
            { status := 500, body := "Internal server error", isError := true,
              persisted := [], calls := pcall :: gcalls ++ [CallRec.modelCall prompt_messages] }
          | some raw =>
            match w.jsonLoads (cleanResponse raw) with
            | none =>
              { status := 500, body := "Internal server error", isError := true,
                persisted := [], calls := pcall :: gcalls ++ [CallRec.modelCall prompt_messages] }
            | some response_json =>
              match persistTweets conversation_id resolved.1 response_json with
              | none =>
                { status := 500, body := "Invalid JSON response from GPT-4o", isError := true,
                  persisted := [], calls := pcall :: gcalls ++ [CallRec.modelCall prompt_messages] }
              | some committed =>
                { status := 200, body := "AI messages appended to conversation", isError := false,
                  persisted := committed, calls := pcall :: gcalls ++ [CallRec.modelCall prompt_messages] }

/-- Parsed model-output element of the expected shape `\x7b"tweet": t\x7d`. -/
def tweetObj (t : String) : JValue := JValue.obj [("tweet", JValue.str t)]

/-- Environment in which every collaborator behaves nominally: conversation 1
exists (user 7, content domain 3) with one user message, the profile, chunk and
search services answer, and the model output parses to two tweet objects. -/
def wOK : World :=
  { getConversation := fun i => if i == 1 then some (Conversation.mk 7 3) else none
    getMessages := fun i => if i == 1 then [Message.mk SenderType.user "hi"] else []
    profileResp := fun _ => some (some "SYS")
    chunkResp := fun _ => some (some "CHUNK")
    searchResp := fun _ _ => some (SearchBody.mk false (some [SearchResult.mk (JValue.num 42) "FOUND"]))
    modelResp := fun _ => some "RAW"
    jsonLoads := fun _ => some (JValue.arr [JValue.obj [("tweet", JValue.str "a")], JValue.obj [("tweet", JValue.str "b")]]) }

/-- Nominal environment whose conversation holds two messages. -/
def wTwoMsgs : World :=
  { wOK with getMessages := fun i =>
      if i == 1 then [Message.mk SenderType.user "m1", Message.mk SenderType.ai "m2"] else [] }

/-- Nominal environment whose conversation holds no messages. -/
def wEmptyConvo : World := { wOK with getMessages := fun _ => [] }

/-- Nominal environment whose similarity search succeeds with zero matches. -/
def wNoMatch : World := { wOK with searchResp := fun _ _ => some (SearchBody.mk false (some [])) }

/-- Environment whose profile service answers with a non-200 status. -/
def wProfileFail : World := { wOK with profileResp := fun _ => none }

/-- Environment whose generative-model call raises a transport error. -/
def wGenFail : World := { wOK with modelResp := fun _ => none }

/-- Environment whose chunk service returns 200 with a payload lacking the
`text` key, so `chunk_data['text']` raises an uncaught `KeyError`. -/
def wUnclassified : World := { wOK with chunkResp := fun _ => some none }

/-- Environment whose model returns text that is not valid JSON, so
`json.loads` raises. -/
def wParseFail : World :=
  { wOK with modelResp := fun _ => some "this is not json", jsonLoads := fun _ => none }

/-- Environment whose model output parses to a JSON number, which the
persistence loop cannot iterate. -/
def wBadShape : World := { wOK with jsonLoads := fun _ => some (JValue.num 3) }

lemma take2_nonempty (l : List Message) (h : l ≠ []) :
    ((l.reverse.take 2).length == 0) = false := by
  have h0 : 0 < l.length := List.length_pos.mpr h
  rw [beq_eq_false_iff_ne]
  simp only [List.length_take, List.length_reverse]
  omega

lemma jIndexTweet_tweetObj (t : String) : jIndexTweet (tweetObj t) = some (JValue.str t) := by
  simp [jIndexTweet, tweetObj]

lemma persistList_tweetObjs (cid : Int) (chunk : JValue) (ts : List String) :
    persistList cid chunk (ts.map tweetObj) =
      some (ts.map (fun t => mkAiMessage cid chunk (JValue.str t))) := by
  induction ts with
  | nil => rfl
  | cons t rest ih => simp [persistList, jIndexTweet_tweetObj, ih]

lemma resolveGrounding_none_fst (w : World) (conv : Conversation) (messages : List Message)
    (h : messages ≠ []) :
    (resolveGrounding w none conv messages).1 =
      [CallRec.searchCall (toString conv.user_id)
        (pyJoin " " ((messages.reverse.take 2).map Message.message_text))] := by
  simp only [resolveGrounding, take2_nonempty messages h, Bool.false_eq_true, if_false]
  split
  · rfl
  · split
    · rfl
    · split <;> rfl

lemma post_calls_shape (w : World) (cid : Int) (conv : Conversation) (instrField : Option String)
    (ccid : Option JValue) (gcalls : List CallRec) (r : Sum (Nat × String) (JValue × String))
    (hconv : w.getConversation cid = some conv)
    (hprof : w.profileResp conv.content_id = some instrField)
    (hground : resolveGrounding w ccid conv (w.getMessages cid) = (gcalls, r)) :
    ∃ tail : List CallRec,
      (post_message_ai w (RequestData.mk (some cid) ccid)).calls =
        CallRec.profileFetch conv.content_id :: gcalls ++ tail := by
  cases r with
  | inl f =>
    simp only [post_message_ai, hconv, hprof, hground]
    exact ⟨[], by simp⟩
  | inr res =>
    refine ⟨[CallRec.modelCall (buildPrompt (instrField.getD "") (w.getMessages cid) res.2)], ?_⟩
    simp only [post_message_ai, hconv, hprof, hground]
    split
    · rfl
    · split
      · rfl
      · split <;> rfl

lemma resolveGrounding_falsy (w : World) (conv : Conversation) (messages : List Message)
    (v : JValue) (h : jTruthy v = false) :
    resolveGrounding w (some v) conv messages = resolveGrounding w none conv messages := by
  simp [resolveGrounding, h]

lemma resolveGrounding_none_no_chunk (w : World) (conv : Conversation) (messages : List Message) :
    ((resolveGrounding w none conv messages).1).all (fun r => ! r.isChunkFetch) = true := by
  simp only [resolveGrounding]
  split
  · rfl
  · split
    · rfl
    · split
      · rfl
      · split <;> rfl

lemma all_not_chunk_cons (a : CallRec) (ha : a.isChunkFetch = false)
    (l : List CallRec) (hl : l.all (fun r => ! r.isChunkFetch) = true) :
    (a :: l).all (fun r => ! r.isChunkFetch) = true := by
  simp [List.all_cons, ha, hl]

lemma post_none_no_chunkFetch (w : World) (cid : Int) :
    (post_message_ai w (RequestData.mk (some cid) none)).calls.all (fun r => ! r.isChunkFetch) = true := by
  cases hg : w.getConversation cid with
  | none =>
    simp only [post_message_ai, hg]
    rfl
  | some conv =>
    cases hp : w.profileResp conv.content_id with
    | none =>
      simp only [post_message_ai, hg, hp]
      rfl
    | some f =>
      rcases hr : resolveGrounding w none conv (w.getMessages cid) with ⟨gc, r⟩
      have hgc : gc.all (fun r => ! r.isChunkFetch) = true := by
        have h2 := resolveGrounding_none_no_chunk w conv (w.getMessages cid)
        rw [hr] at h2
        exact h2
      cases r with
      | inl fl =>
        simp only [post_message_ai, hg, hp, hr]
        exact all_not_chunk_cons (CallRec.profileFetch conv.content_id) rfl gc hgc
      | inr res =>
        have hgc2 : ((gc ++ [CallRec.modelCall (buildPrompt (f.getD "") (w.getMessages cid) res.2)]).all
            (fun r => ! r.isChunkFetch)) = true := by
          rw [List.all_append, hgc]
          rfl
        simp only [post_message_ai, hg, hp, hr]
        split
        · exact all_not_chunk_cons (CallRec.profileFetch conv.content_id) rfl _ hgc2
        · split
          · exact all_not_chunk_cons (CallRec.profileFetch conv.content_id) rfl _ hgc2
          · split
            · exact all_not_chunk_cons (CallRec.profileFetch conv.content_id) rfl _ hgc2
            · exact all_not_chunk_cons (CallRec.profileFetch conv.content_id) rfl _ hgc2

/-- Claim C1 (code bug).  The claim says every model output that is not valid
JSON yields the distinct Invalid Model Output error with nothing persisted.
In the code, `json.loads` sits outside the inner try/except, so an unparsable
output raises to the outer handler: in the environment `wParseFail`, whose
model returns text that is not valid JSON, the run ends with the generic
`(500, "Internal server error")` — not the distinct
`"Invalid JSON response from GPT-4o"` — though indeed nothing is persisted. -/
theorem C1_invalid_json_generic_error :
    (post_message_ai wParseFail (RequestData.mk (some 1) (some (JValue.num 5)))).status = 500 ∧
    (post_message_ai wParseFail (RequestData.mk (some 1) (some (JValue.num 5)))).body = "Internal server error" ∧
    (post_message_ai wParseFail (RequestData.mk (some 1) (some (JValue.num 5)))).persisted = [] ∧
    (post_message_ai wParseFail (RequestData.mk (some 1) (some (JValue.num 5)))).body ≠ "Invalid JSON response from GPT-4o" := by
  refine ⟨rfl, rfl, rfl, ?_⟩
  decide

/-- Claim C2.  In every run that reaches generation with resolved grounding
`(chunkVal, chunkText)` and whose model output parses to a list of N objects
with `tweet` fields, exactly those N messages are committed as one batch, in
array order, each with sender `ai` and `content_chunk_id` equal to the
resolved grounding identifier, and the acknowledgment is returned. -/
theorem C2_success_batch (w : World) (cid : Int) (conv : Conversation)
    (ccid : Option JValue) (instrField : Option String)
    (gcalls : List CallRec) (chunkVal : JValue) (chunkText : String)
    (raw : String) (ts : List String)
    (hconv : w.getConversation cid = some conv)
    (hprof : w.profileResp conv.content_id = some instrField)
    (hground : resolveGrounding w ccid conv (w.getMessages cid) = (gcalls, Sum.inr (chunkVal, chunkText)))
    (hmodel : w.modelResp (buildPrompt (instrField.getD "") (w.getMessages cid) chunkText) = some raw)
    (hparse : w.jsonLoads (cleanResponse raw) = some (JValue.arr (ts.map tweetObj))) :
    post_message_ai w (RequestData.mk (some cid) ccid) =
      RunTrace.mk 200 "AI messages appended to conversation" false
        (ts.map (fun t => mkAiMessage cid chunkVal (JValue.str t)))
        (CallRec.profileFetch conv.content_id :: gcalls ++
          [CallRec.modelCall (buildPrompt (instrField.getD "") (w.getMessages cid) chunkText)]) := by
  simp only [post_message_ai, hconv, hprof, hground, hmodel, hparse, persistTweets, jIter,
    persistList_tweetObjs]

/-- Witness for C2 at a concrete environment: model output
`[\x7b"tweet": "a"\x7d, \x7b"tweet": "b"\x7d]` commits exactly two `ai` rows
tagged with the supplied chunk id 5, in order, and returns the acknowledgment. -/
theorem C2_success_batch_witness :
    post_message_ai wOK (RequestData.mk (some 1) (some (JValue.num 5))) =
      RunTrace.mk 200 "AI messages appended to conversation" false
        [mkAiMessage 1 (JValue.num 5) (JValue.str "a"), mkAiMessage 1 (JValue.num 5) (JValue.str "b")]
        [CallRec.profileFetch 3, CallRec.chunkFetch (JValue.num 5),
          CallRec.modelCall (buildPrompt "SYS" [Message.mk SenderType.user "hi"] "CHUNK")] :=
  C2_success_batch wOK 1 (Conversation.mk 7 3) (some (JValue.num 5)) (some "SYS")
    [CallRec.chunkFetch (JValue.num 5)] (JValue.num 5) "CHUNK" "RAW" ["a", "b"]
    rfl rfl rfl rfl rfl

/-- Claim C3.  For every persona string P, history, and grounding text T, the
composed instruction sequence has exactly N+2 entries: a system entry equal to
P, the N history entries in order with roles mapped `user`/`ai` to
`user`/`assistant` and text unchanged, and a final user entry carrying the
fixed JSON-array-of-tweets formatting instruction and T verbatim. -/
theorem C3_prompt_shape (P T : String) (messages : List Message) :
    (buildPrompt P messages T).length = messages.length + 2 ∧
    ∃ task : String,
      buildPrompt P messages T =
        ChatMsg.mk "system" P ::
          (messages.map (fun m => ChatMsg.mk (roleStr m.sender) m.message_text) ++
            [ChatMsg.mk "user" (task ++ formatInstruction ++ contentHeader ++ T)]) := by
  constructor
  · simp [buildPrompt]
  · exact ⟨if messages.length == 0 then firstTurnPrompt else replyPromptPrefix ++ lastUserQuery messages, rfl⟩

/-- Claim C4.  For every request omitting `content_chunk_id` on a conversation
with at least one message, the search call (the second outbound call of the
run) carries exactly the single-space join of the two most recent messages'
texts, most recent first. -/
theorem C4_search_query (w : World) (cid : Int) (conv : Conversation) (instrField : Option String)
    (hconv : w.getConversation cid = some conv)
    (hprof : w.profileResp conv.content_id = some instrField)
    (hne : w.getMessages cid ≠ []) :
    (post_message_ai w (RequestData.mk (some cid) none)).calls[1]? =
      some (CallRec.searchCall (toString conv.user_id)
        (pyJoin " " (((w.getMessages cid).reverse.take 2).map Message.message_text))) := by
  rcases hr : resolveGrounding w none conv (w.getMessages cid) with ⟨gc, r⟩
  have hgc : gc = [CallRec.searchCall (toString conv.user_id)
      (pyJoin " " (((w.getMessages cid).reverse.take 2).map Message.message_text))] := by
    have h2 := resolveGrounding_none_fst w conv (w.getMessages cid) hne
    rw [hr] at h2
    exact h2
  obtain ⟨tail, htail⟩ := post_calls_shape w cid conv instrField none gc r hconv hprof hr
  rw [htail, hgc]
  simp

/-- Witness for C4: with history `[user "m1", ai "m2"]` the search query is
`"m2 m1"` — most recent first, single-space joined. -/
theorem C4_search_query_witness :
    (post_message_ai wTwoMsgs (RequestData.mk (some 1) none)).calls[1]? =
      some (CallRec.searchCall (toString (7 : Int)) (pyJoin " " ["m2", "m1"])) :=
  C4_search_query wTwoMsgs 1 (Conversation.mk 7 3) (some "SYS") rfl rfl (List.cons_ne_nil _ _)

/-- Claim C5.  For every well-formed request whose conversation id does not
resolve, the run returns the Not Found error (404) with nothing persisted and
an empty outbound-call list: no persona fetch, chunk fetch, search, or model
call happens after the conversation lookup. -/
theorem C5_not_found (w : World) (cid : Int) (ccid : Option JValue)
    (h : w.getConversation cid = none) :
    post_message_ai w (RequestData.mk (some cid) ccid) =
      RunTrace.mk 404 "Conversation not found" true [] [] := by
  simp only [post_message_ai, h]

/-- Witness for C5: conversation 2 does not exist in `wOK`. -/
theorem C5_not_found_witness :
    post_message_ai wOK (RequestData.mk (some 2) none) =
      RunTrace.mk 404 "Conversation not found" true [] [] :=
  C5_not_found wOK 2 none rfl

/-- Claim C6.  For every request omitting `content_chunk_id` on a conversation
with zero messages (and a persona fetch that answers), the run returns the
"no basis for response" error with nothing persisted, and no search call is
issued: the only outbound call is the persona fetch. -/
theorem C6_no_basis (w : World) (cid : Int) (conv : Conversation) (instrField : Option String)
    (hconv : w.getConversation cid = some conv)
    (hmsgs : w.getMessages cid = [])
    (hprof : w.profileResp conv.content_id = some instrField) :
    post_message_ai w (RequestData.mk (some cid) none) =
      RunTrace.mk 400 "No user message found to base AI response on" true []
        [CallRec.profileFetch conv.content_id] ∧
    (post_message_ai w (RequestData.mk (some cid) none)).calls.all (fun r => ! r.isSearchCall) = true := by
  have h1 : post_message_ai w (RequestData.mk (some cid) none) =
      RunTrace.mk 400 "No user message found to base AI response on" true []
        [CallRec.profileFetch conv.content_id] := by
    simp [post_message_ai, hconv, hprof, resolveGrounding, hmsgs]
  refine ⟨h1, ?_⟩
  rw [h1]
  rfl

/-- Witness for C6 at the empty conversation of `wEmptyConvo`. -/
theorem C6_no_basis_witness :
    post_message_ai wEmptyConvo (RequestData.mk (some 1) none) =
      RunTrace.mk 400 "No user message found to base AI response on" true []
        [CallRec.profileFetch 3] ∧
    (post_message_ai wEmptyConvo (RequestData.mk (some 1) none)).calls.all
      (fun r => ! r.isSearchCall) = true :=
  C6_no_basis wEmptyConvo 1 (Conversation.mk 7 3) (some "SYS") rfl rfl rfl

/-- Claim C7.  For every run whose similarity search succeeds (200, no GraphQL
errors) but returns zero matches, the run returns the "no similar content"
error with nothing persisted, and the generative model is never invoked: the
outbound calls are exactly the persona fetch and the search call. -/
theorem C7_no_similar (w : World) (cid : Int) (conv : Conversation) (instrField : Option String)
    (sbody : SearchBody)
    (hconv : w.getConversation cid = some conv)
    (hprof : w.profileResp conv.content_id = some instrField)
    (hne : w.getMessages cid ≠ [])
    (hsearch : w.searchResp (toString conv.user_id)
        (pyJoin " " (((w.getMessages cid).reverse.take 2).map Message.message_text)) = some sbody)
    (herr : sbody.hasErrors = false)
    (hempty : sbody.chunks = some []) :
    post_message_ai w (RequestData.mk (some cid) none) =
      RunTrace.mk 400 "No similar content found for AI to respond with" true []
        [CallRec.profileFetch conv.content_id,
          CallRec.searchCall (toString conv.user_id)
            (pyJoin " " (((w.getMessages cid).reverse.take 2).map Message.message_text))] ∧
    (post_message_ai w (RequestData.mk (some cid) none)).calls.all (fun r => ! r.isModelCall) = true := by
  have h1 : post_message_ai w (RequestData.mk (some cid) none) =
      RunTrace.mk 400 "No similar content found for AI to respond with" true []
        [CallRec.profileFetch conv.content_id,
          CallRec.searchCall (toString conv.user_id)
            (pyJoin " " (((w.getMessages cid).reverse.take 2).map Message.message_text))] := by
    simp only [post_message_ai, hconv, hprof, resolveGrounding,
      take2_nonempty (w.getMessages cid) hne, hsearch, herr, hempty]
    simp
  refine ⟨h1, ?_⟩
  rw [h1]
  rfl

/-- Witness for C7 at `wNoMatch`, whose search returns an empty match list. -/
theorem C7_no_similar_witness :
    post_message_ai wNoMatch (RequestData.mk (some 1) none) =
      RunTrace.mk 400 "No similar content found for AI to respond with" true []
        [CallRec.profileFetch 3,
          CallRec.searchCall (toString (7 : Int)) (pyJoin " " ["hi"])] ∧
    (post_message_ai wNoMatch (RequestData.mk (some 1) none)).calls.all
      (fun r => ! r.isModelCall) = true :=
  C7_no_similar wNoMatch 1 (Conversation.mk 7 3) (some "SYS") (SearchBody.mk false (some []))
    rfl rfl (List.cons_ne_nil _ _) rfl rfl rfl

/-- Claim C9 (counterexample).  Two failing runs in different taxonomy
categories are outwardly identical: in `wGenFail` the model call fails
transport-wise (a Generation Failure; three outbound calls happen, the model
call included), while in `wUnclassified` the chunk payload lacks `text` and
the run dies on an uncaught `KeyError` (an Unclassified fault; only two
outbound calls happen).  Both return status 500 with the identical body
`"Internal server error"`, so the categories are not mapped to distinct
outward statuses. -/
theorem C9_status_counterexample :
    (post_message_ai wGenFail (RequestData.mk (some 1) none)).status = 500 ∧
    (post_message_ai wGenFail (RequestData.mk (some 1) none)).body = "Internal server error" ∧
    (post_message_ai wGenFail (RequestData.mk (some 1) none)).calls.length = 3 ∧
    (post_message_ai wUnclassified (RequestData.mk (some 1) (some (JValue.num 5)))).status = 500 ∧
    (post_message_ai wUnclassified (RequestData.mk (some 1) (some (JValue.num 5)))).body = "Internal server error" ∧
    (post_message_ai wUnclassified (RequestData.mk (some 1) (some (JValue.num 5)))).calls.length = 2 :=
  ⟨rfl, rfl, rfl, rfl, rfl, rfl⟩

/-- Claim C9 (amended).  The actual outward mapping of the error taxonomy on
representative runs: Bad Input `(400, conversation_id is required)`, Not Found
`(404, Conversation not found)`, Upstream Unavailable
`(500, Failed to retrieve AI profile)`, No Groundable Content
`(400, No user message found to base AI response on)`, Invalid Model Output
(shape failure) `(500, Invalid JSON response from GPT-4o)`, and Generation
Failure and Unclassified faults sharing the identical generic
`(500, Internal server error)`.  Status codes alone do not separate
categories, and the last two categories are outwardly indistinguishable. -/
theorem C9_status_amended :
    ((post_message_ai wOK (RequestData.mk none none)).status = 400 ∧
      (post_message_ai wOK (RequestData.mk none none)).body = "conversation_id is required") ∧
    ((post_message_ai wOK (RequestData.mk (some 2) none)).status = 404 ∧
      (post_message_ai wOK (RequestData.mk (some 2) none)).body = "Conversation not found") ∧
    ((post_message_ai wProfileFail (RequestData.mk (some 1) none)).status = 500 ∧
      (post_message_ai wProfileFail (RequestData.mk (some 1) none)).body = "Failed to retrieve AI profile") ∧
    ((post_message_ai wEmptyConvo (RequestData.mk (some 1) none)).status = 400 ∧
      (post_message_ai wEmptyConvo (RequestData.mk (some 1) none)).body = "No user message found to base AI response on") ∧
    ((post_message_ai wBadShape (RequestData.mk (some 1) none)).status = 500 ∧
      (post_message_ai wBadShape (RequestData.mk (some 1) none)).body = "Invalid JSON response from GPT-4o") ∧
    ((post_message_ai wGenFail (RequestData.mk (some 1) none)).status = 500 ∧
      (post_message_ai wGenFail (RequestData.mk (some 1) none)).body = "Internal server error") ∧
    ((post_message_ai wUnclassified (RequestData.mk (some 1) (some (JValue.num 5)))).status = 500 ∧
      (post_message_ai wUnclassified (RequestData.mk (some 1) (some (JValue.num 5)))).body = "Internal server error") :=
  ⟨⟨rfl, rfl⟩, ⟨rfl, rfl⟩, ⟨rfl, rfl⟩, ⟨rfl, rfl⟩, ⟨rfl, rfl⟩, ⟨rfl, rfl⟩, ⟨rfl, rfl⟩⟩

/-- Claim C10.  For every request supplying a falsy `content_chunk_id` (0,
null, empty string, ...), the run is identical to the run with the identifier
omitted: the chunk-by-id fetch is skipped (no chunk fetch appears among the
outbound calls) and the similarity-search grounding path is taken instead. -/
theorem C10_falsy_chunk (w : World) (cid : Int) (v : JValue) (h : jTruthy v = false) :
    post_message_ai w (RequestData.mk (some cid) (some v)) =
      post_message_ai w (RequestData.mk (some cid) none) ∧
    (post_message_ai w (RequestData.mk (some cid) (some v))).calls.all (fun r => ! r.isChunkFetch) = true := by
  have heq : post_message_ai w (RequestData.mk (some cid) (some v)) =
      post_message_ai w (RequestData.mk (some cid) none) := by
    cases hg : w.getConversation cid with
    | none => simp [post_message_ai, hg]
    | some conv =>
      cases hp : w.profileResp conv.content_id with
      | none => simp [post_message_ai, hg, hp]
      | some f =>
        simp only [post_message_ai, hg, hp,
          resolveGrounding_falsy w conv (w.getMessages cid) v h]
  exact ⟨heq, by rw [heq]; exact post_none_no_chunkFetch w cid⟩

/-- Witness for C10: a literal chunk identifier 0 behaves exactly like an
omitted identifier. -/
theorem C10_falsy_chunk_witness :
    (post_message_ai wOK (RequestData.mk (some 1) (some (JValue.num 0))) =
      post_message_ai wOK (RequestData.mk (some 1) none)) ∧
    (post_message_ai wOK (RequestData.mk (some 1) (some (JValue.num 0)))).calls.all
      (fun r => ! r.isChunkFetch) = true :=
  C10_falsy_chunk wOK 1 (JValue.num 0) rfl

lemma pyReplace_jfence (s : String) :
    pyReplace s "```json" "" = String.mk (replaceFrom btChar jsonTailChars [] s.data) := rfl

lemma pyReplace_fence (s : String) :
    pyReplace s "```" "" = String.mk (replaceFrom btChar fenceTailChars [] s.data) := rfl

lemma cleanResponse_mk (l : List Char) :
    cleanResponse (String.mk l) =
      String.mk (replaceFrom btChar fenceTailChars []
        (replaceFrom btChar jsonTailChars [] (pyStripChars l))) := rfl

lemma dropWhile_eq_self_of_head (l : List Char)
    (h : ∀ c, l.head? = some c → isPySpace c = false) :
    l.dropWhile isPySpace = l := by
  cases l with
  | nil => rfl
  | cons c cs =>
    rw [List.dropWhile_cons]
    simp [h c rfl]

lemma pyStripChars_eq_self (l : List Char)
    (h1 : ∀ c, l.head? = some c → isPySpace c = false)
    (h2 : ∀ c, l.getLast? = some c → isPySpace c = false) :
    pyStripChars l = l := by
  unfold pyStripChars
  rw [dropWhile_eq_self_of_head l h1]
  rw [dropWhile_eq_self_of_head l.reverse
    (by intro c hc; exact h2 c (by rwa [List.head?_reverse] at hc))]
  exact List.reverse_reverse l

lemma isPrefixChars_append_self (l t : List Char) : isPrefixChars l (l ++ t) = true := by
  induction l with
  | nil => rfl
  | cons c cs ih => simp [isPrefixChars, ih]

lemma isPrefixChars_cons_ne (p0 c : Char) (ps cs : List Char) (h : p0 ≠ c) :
    isPrefixChars (p0 :: ps) (c :: cs) = false := by
  simp [isPrefixChars, beq_eq_false_iff_ne.mpr h]

lemma isPrefixChars_of_head_notMem (p0 : Char) (ps q : List Char) (h : p0 ∉ q) :
    isPrefixChars (p0 :: ps) q = false := by
  cases q with
  | nil => rfl
  | cons c cs =>
    exact isPrefixChars_cons_ne p0 c ps cs (fun e => h (e ▸ List.mem_cons_self c cs))

lemma replaceFrom_of_notMem (p0 : Char) (ps rep s : List Char) (h : p0 ∉ s) :
    replaceFrom p0 ps rep s = s := by
  induction s with
  | nil => simp [replaceFrom]
  | cons c cs ih =>
    have hc : p0 ≠ c := fun e => h (e ▸ List.mem_cons_self c cs)
    have hcs : p0 ∉ cs := fun m => h (List.mem_cons_of_mem c m)
    simp only [replaceFrom, isPrefixChars_cons_ne p0 c ps cs hc, Bool.false_eq_true, if_false]
    rw [ih hcs]

lemma replaceFrom_append (p0 : Char) (ps rep a b : List Char) (ha : p0 ∉ a) :
    replaceFrom p0 ps rep (a ++ (p0 :: ps) ++ b) = a ++ rep ++ replaceFrom p0 ps rep b := by
  induction a with
  | nil =>
    simp only [List.nil_append]
    have h1 : isPrefixChars (p0 :: ps) (p0 :: (ps ++ b)) = true := by
      have h2 := isPrefixChars_append_self (p0 :: ps) b
      rwa [List.cons_append] at h2
    rw [List.cons_append]
    simp only [replaceFrom, h1, if_true]
    rw [List.drop_left]
  | cons c cs ih =>
    have hc : p0 ≠ c := fun e => ha (e ▸ List.mem_cons_self c cs)
    have hcs : p0 ∉ cs := fun m => ha (List.mem_cons_of_mem c m)
    simp only [List.cons_append]
    simp only [replaceFrom, isPrefixChars_cons_ne p0 c ps _ hc, Bool.false_eq_true, if_false]
    have ih2 := ih hcs
    simp only [List.cons_append] at ih2 ⊢
    rw [ih2]

lemma replaceFrom_jfence_skip (p q : List Char) (hp : btChar ∉ p) (hq : btChar ∉ q)
    (hqj : isPrefixChars "json".data q = false) :
    replaceFrom btChar jsonTailChars [] (p ++ fenceChars ++ q) = p ++ fenceChars ++ q := by
  induction p with
  | nil =>
    simp only [List.nil_append]
    have hf : fenceChars ++ q = btChar :: btChar :: btChar :: q := rfl
    rw [hf]
    have hjt : jsonTailChars = btChar :: btChar :: 'j' :: 's' :: 'o' :: 'n' :: [] := rfl
    have hb2 : isPrefixChars (btChar :: jsonTailChars) (btChar :: btChar :: btChar :: q) = false := by
      rw [hjt]
      simp only [isPrefixChars, beq_self_eq_true, Bool.true_and]
      exact hqj
    have hb3 : isPrefixChars (btChar :: jsonTailChars) (btChar :: btChar :: q) = false := by
      rw [hjt]
      simp only [isPrefixChars, beq_self_eq_true, Bool.true_and]
      exact isPrefixChars_of_head_notMem btChar _ q hq
    have hb4 : isPrefixChars (btChar :: jsonTailChars) (btChar :: q) = false := by
      rw [hjt]
      simp only [isPrefixChars, beq_self_eq_true, Bool.true_and]
      exact isPrefixChars_of_head_notMem btChar _ q hq
    simp only [replaceFrom, hb2, hb3, hb4, Bool.false_eq_true, if_false,
      replaceFrom_of_notMem btChar jsonTailChars [] q hq]
  | cons c cs ih =>
    have hc : btChar ≠ c := fun e => hp (e ▸ List.mem_cons_self c cs)
    have hcs : btChar ∉ cs := fun m => hp (List.mem_cons_of_mem c m)
    simp only [List.cons_append]
    simp only [replaceFrom, isPrefixChars_cons_ne btChar c jsonTailChars _ hc,
      Bool.false_eq_true, if_false]
    have ih2 := ih hcs
    simp only [List.cons_append] at ih2 ⊢
    rw [ih2]

lemma replaceFrom_fence_unwrap (p : List Char) (hp : btChar ∉ p) :
    replaceFrom btChar fenceTailChars [] (p ++ fenceChars) = p := by
  have hf : p ++ fenceChars = p ++ (btChar :: fenceTailChars) ++ [] := by
    rw [List.append_nil]
    rfl
  rw [hf, replaceFrom_append btChar fenceTailChars [] p [] hp]
  simp [replaceFrom]

lemma replaceFrom_fence_mid (p q : List Char) (hp : btChar ∉ p) (hq : btChar ∉ q) :
    replaceFrom btChar fenceTailChars [] (p ++ fenceChars ++ q) = p ++ q := by
  have hf : p ++ fenceChars ++ q = p ++ (btChar :: fenceTailChars) ++ q := rfl
  rw [hf, replaceFrom_append btChar fenceTailChars [] p q hp]
  rw [replaceFrom_of_notMem btChar fenceTailChars [] q hq]
  simp

/-- Claim C8 (counterexample).  The claim says the pre-parse cleanup removes
only a leading and/or trailing Markdown fence marker, leaving interior
characters unchanged.  The input `"a ``` b"` carries no leading or trailing
fence, so under the claim it would pass through unchanged; the cleanup in the
code instead deletes the interior fence and returns `"a  b"`. -/
theorem C8_cleanup_counterexample :
    cleanResponse "a ``` b" = "a  b" ∧ ("a  b" : String) ≠ "a ``` b" := by
  constructor
  · simp [cleanResponse, pyStrip, pyStripChars, pyReplace, isPySpace, replaceFrom, isPrefixChars]
  · decide

/-- Claim C8 (amended).  The cleanup strips surrounding whitespace and then
deletes every occurrence of the fence markers anywhere in the text — interior
ones included — leaving the other characters unchanged: a conventionally
fenced, backtick-free and whitespace-free payload `p` is unwrapped exactly to
`p` (first conjunct), and a fence marker interior to such text is deleted as
well, splicing the surrounding characters together (second conjunct; the
`json` side condition rules out the longer `"```json"` marker matching at the
interior fence). -/
theorem C8_cleanup_amended (p q : List Char)
    (hp : ∀ c ∈ p, c ≠ btChar ∧ isPySpace c = false)
    (hq : ∀ c ∈ q, c ≠ btChar ∧ isPySpace c = false)
    (hqj : isPrefixChars "json".data q = false) :
    cleanResponse (String.mk ("```json".data ++ p ++ "```".data)) = String.mk p ∧
    cleanResponse (String.mk (p ++ "```".data ++ q)) = String.mk (p ++ q) := by
  have hpbt : btChar ∉ p := fun m => (hp btChar m).1 rfl
  have hqbt : btChar ∉ q := fun m => (hq btChar m).1 rfl
  have hfc : ("```".data : List Char) = fenceChars := rfl
  constructor
  · rw [cleanResponse_mk]
    have hstrip : pyStripChars ("```json".data ++ p ++ "```".data) =
        "```json".data ++ p ++ "```".data := by
      apply pyStripChars_eq_self
      · intro c hc
        have hh : ("```json".data ++ p ++ "```".data).head? = some btChar := rfl
        rw [hh] at hc
        cases hc
        decide
      · intro c hc
        rw [List.getLast?_append] at hc
        have hl : ("```".data : List Char).getLast? = some btChar := rfl
        rw [hl] at hc
        cases hc
        decide
    rw [hstrip]
    have h1 : "```json".data ++ p ++ "```".data =
        [] ++ (btChar :: jsonTailChars) ++ (p ++ fenceChars) := by
      simp only [List.nil_append, List.append_assoc]
      rfl
    rw [h1, replaceFrom_append btChar jsonTailChars [] [] (p ++ fenceChars) (by simp)]
    simp only [List.nil_append]
    have h2 : replaceFrom btChar jsonTailChars [] (p ++ fenceChars) = p ++ fenceChars := by
      have h3 := replaceFrom_jfence_skip p [] hpbt (by simp) (by decide)
      rwa [List.append_nil] at h3
    rw [h2, replaceFrom_fence_unwrap p hpbt]
  · rw [cleanResponse_mk]
    have hstrip : pyStripChars (p ++ "```".data ++ q) = p ++ "```".data ++ q := by
      apply pyStripChars_eq_self
      · intro c hc
        cases p with
        | nil =>
          have hh : (([] : List Char) ++ "```".data ++ q).head? = some btChar := rfl
          rw [hh] at hc
          cases hc
          decide
        | cons a as =>
          have hh : ((a :: as) ++ "```".data ++ q).head? = some a := rfl
          rw [hh] at hc
          obtain rfl := Option.some.inj hc
          exact (hp a (List.mem_cons_self a as)).2
      · intro c hc
        rw [List.getLast?_append] at hc
        cases hql : q.getLast? with
        | none =>
          rw [hql] at hc
          simp only [Option.or] at hc
          rw [List.getLast?_append] at hc
          have hl : ("```".data : List Char).getLast? = some btChar := rfl
          rw [hl] at hc
          cases hc
          decide
        | some c2 =>
          rw [hql] at hc
          simp only [Option.or] at hc
          obtain rfl := Option.some.inj hc
          have hmem : c2 ∈ q := by
            obtain ⟨hne, heq⟩ := List.mem_getLast?_eq_getLast (Option.mem_def.mpr hql)
            rw [heq]
            exact List.getLast_mem hne
          exact (hq c2 hmem).2
    rw [hstrip, hfc]
    rw [replaceFrom_jfence_skip p q hpbt hqbt hqj]
    rw [replaceFrom_fence_mid p q hpbt hqbt]

/-- Witness for the amended C8 at the backtick-free payload `[1,2]` and
interior continuation `x`: the fenced payload is unwrapped exactly, and an
interior fence is deleted with the surrounding characters spliced together. -/
theorem C8_cleanup_amended_witness :
    (∀ c ∈ ("[1,2]".data : List Char), c ≠ btChar ∧ isPySpace c = false) ∧
    (cleanResponse (String.mk ("```json".data ++ "[1,2]".data ++ "```".data)) =
      String.mk "[1,2]".data ∧
    cleanResponse (String.mk ("[1,2]".data ++ "```".data ++ "x".data)) =
      String.mk ("[1,2]".data ++ "x".data)) :=
  ⟨by decide, C8_cleanup_amended "[1,2]".data "x".data (by decide) (by decide) (by decide)⟩

end GnosisInfluencer
